import Mathlib

/-!
Shallow embedding of the reservation-lifecycle core of `src/library_bot.py`
(stonelibrary_bot): the four relational tables created in `init_db`
(`users`, `books`, `bookings`, `waiting_list`) and the database functions
`update_book_status`, `get_available_book_instance`, `create_booking`,
`complete_booking`, `extend_booking`, `add_to_waiting_list`,
`get_first_in_waiting_list`, `remove_from_waiting_list`,
`notify_next_in_waiting_list`, plus the reminder computation of the
`check_reminders` background sweep.

Modelling conventions:
* Time is a `Nat` counting minutes (Python `datetime` arithmetic is linear;
  every `timedelta` used by the source is a whole number of minutes).
  `.date()` is minutes-div-1440, `.hour` is minutes-mod-1440 div 60.
* A table is a `List` of rows in physical row order; SQL `LIMIT 1` with no
  `ORDER BY` is the first matching row of that list, `ORDER BY added_at ASC
  LIMIT 1` is the minimum-`added_at` matching row.
* `asyncpg` connection semantics are modelled explicitly: helper functions
  that do `db.pool.acquire()` themselves (`update_book_status`,
  `remove_from_waiting_list`, `notify_next_in_waiting_list`) run on their own
  connection and therefore commit immediately, even when called from inside
  another connection's `conn.transaction()` block.
* The only failure mode of the `INSERT INTO bookings` statement that the
  schema itself forces is a foreign-key violation (`bookings.user_id
  REFERENCES users`, `bookings.book_id REFERENCES books`); it is modelled by
  checking those references.  Python exceptions become `Except` values.
-/

structure Book where
  id : Nat
  title : String
  author : String
  office : String
  shelf : Option Nat
  floor : Option Nat
  status : String
deriving DecidableEq

structure UserRow where
  user_id : Nat
  first_name : String
  last_name : String
  office : String
  current_book : Option String
  booking_start : Option Nat
  booking_duration : Option String
  booking_end : Option Nat
  status : String
deriving DecidableEq

structure BookingRow where
  id : Nat
  user_id : Nat
  book_id : Nat
  book_title : String
  office : String
  start_time : Nat
  duration : String
  end_time : Nat
  status : String
  extension_made : Bool
  overdue_notified : Bool
deriving DecidableEq

structure WaitingEntry where
  user_id : Nat
  book_title : String
  office : String
  added_at : Nat
  notified : Bool
deriving DecidableEq

structure DB where
  users : List UserRow
  books : List Book
  bookings : List BookingRow
  waiting_list : List WaitingEntry
  nextBookingId : Nat
deriving DecidableEq

/-- Python exceptions surfaced by the embedded functions. -/
inductive PyError where
  | valueError (msg : String)
  | foreignKeyViolation
deriving DecidableEq

deriving instance DecidableEq for Except

def statusAvailable : String := "available"

def statusBooked : String := "booked"

def statusActive : String := "active"

def statusCompleted : String := "completed"

def notFoundMsg : String := "Бронирование не найдено или уже завершено"

def alreadyExtendedMsg : String := "Бронь уже была продлена ранее"

def unknownDurationMsg : String := "Неизвестная длительность: "

def unknownDurationShort : String := "Неизвестная длительность"

def extTxtHour : String := "15 минут"

def extTxtWeek : String := "1 неделю"

def extTxtMonth : String := "2 недели"

def extTxt3M : String := "1 месяц"

def extTxt6M : String := "2 месяца"

/-- SQL `LOWER`, as used by the title comparisons of `library_bot.py`. -/
def strLower (s : String) : String := ⟨s.data.map Char.toLower⟩

/-- The `if duration == ... / elif ... / else raise` chain of
`create_booking` (lines 292-303): minutes added to the start time, `none`
for an unrecognized duration class. -/
def duration_delta (duration : String) : Option Nat :=
  if duration == "1 час" then some 60
  else if duration == "1 неделя" then some 10080
  else if duration == "1 месяц" then some 43200
  else if duration == "3 месяца" then some 129600
  else if duration == "6 месяцев" then some 259200
  else none

/-- The extension-length chain of `extend_booking` (lines 364-380):
minutes added to the current end time plus the human-readable label,
`none` for an unrecognized duration class. -/
def extension_delta (duration : String) : Option (Nat × String) :=
  if duration == "1 час" then some (15, extTxtHour)
  else if duration == "1 неделя" then some (10080, extTxtWeek)
  else if duration == "1 месяц" then some (20160, extTxtMonth)
  else if duration == "3 месяца" then some (43200, extTxt3M)
  else if duration == "6 месяцев" then some (86400, extTxt6M)
  else none

/-- `update_book_status` (lines 263-269): `UPDATE books SET status = $1
WHERE id = $2`, on its own pool connection (commits immediately). -/
def update_book_status (books : List Book) (book_id : Nat) (status : String) : List Book :=
  books.map fun b => if b.id == book_id then { b with status := status } else b

/-- `get_available_book_instance` (lines 250-261): `SELECT ... WHERE
LOWER(title) = LOWER($1) AND office = $2 AND status = 'available' LIMIT 1`
with no ORDER BY — the first matching row in physical row order. -/
def get_available_book_instance (books : List Book) (title office : String) : Option Book :=
  books.find? fun b =>
    strLower b.title == strLower title && b.office == office && b.status == "available"

/-- `remove_from_waiting_list` (lines 422-427): `DELETE FROM waiting_list
WHERE user_id = $1 AND book_title = $2 AND office = $3`, own connection. -/
def remove_from_waiting_list (wl : List WaitingEntry) (user_id : Nat)
    (book_title office : String) : List WaitingEntry :=
  wl.filter fun w => !(w.user_id == user_id && w.book_title == book_title && w.office == office)

/-- `add_to_waiting_list` (lines 395-409): `INSERT ... ON CONFLICT
(user_id, book_title, office) DO NOTHING` followed by `return True`
(the `except` branch returning `False` is unreachable for a duplicate,
since ON CONFLICT suppresses the uniqueness error). -/
def add_to_waiting_list (wl : List WaitingEntry) (user_id : Nat)
    (book_title office : String) (now : Nat) : List WaitingEntry × Bool :=
  if wl.any fun w => w.user_id == user_id && w.book_title == book_title && w.office == office then
    (wl, true)
  else
    (wl ++ [{ user_id := user_id, book_title := book_title, office := office,
              added_at := now, notified := false }], true)

/-- The WHERE clause of `get_first_in_waiting_list`:
`book_title = $1 AND office = $2 AND NOT notified`. -/
def wlMatch (w : WaitingEntry) (book_title office : String) : Bool :=
  w.book_title == book_title && w.office == office && !w.notified

/-- `get_first_in_waiting_list` (lines 411-420): `SELECT user_id FROM
waiting_list WHERE book_title = $1 AND office = $2 AND NOT notified
ORDER BY added_at ASC LIMIT 1` — the minimum-`added_at` matching entry
(ties broken by row order, which SQL leaves unspecified). -/
def get_first_in_waiting_list : List WaitingEntry → String → String → Option WaitingEntry
  | [], _, _ => none
  | w :: rest, book_title, office =>
    let r := get_first_in_waiting_list rest book_title office
    if wlMatch w book_title office then
      match r with
      | none => some w
      | some m => if w.added_at ≤ m.added_at then some w else some m
    else r

/-- `get_user_info` (lines 222-227): fetch the user row by id. -/
def get_user_info (users : List UserRow) (user_id : Nat) : Option UserRow :=
  users.find? fun u => u.user_id == user_id

/-- `notify_next_in_waiting_list` (lines 429-450): peek the oldest
unnotified entry; if the user exists, send the message (`sendOk = false`
models `bot.send_message` raising, caught by the inner `try`), and only on
successful delivery `UPDATE waiting_list SET notified = TRUE WHERE user_id
AND book_title AND office`.  Returns the new list, the recipient the send
was attempted to, and the function's boolean result. -/
def notify_next_in_waiting_list (wl : List WaitingEntry) (users : List UserRow)
    (book_title office : String) (sendOk : Bool) : List WaitingEntry × Option Nat × Bool :=
  match get_first_in_waiting_list wl book_title office with
  | none => (wl, none, false)
  | some w =>
    match get_user_info users w.user_id with
    | none => (wl, none, false)
    | some _ =>
      if sendOk then
        (wl.map (fun e =>
          if e.user_id == w.user_id && e.book_title == book_title && e.office == office then
            { e with notified := true }
          else e),
         some w.user_id, true)
      else (wl, some w.user_id, false)

/-- `create_booking` (lines 288-327).  The duration chain runs before any
write; then, although the source opens `conn.transaction()`, the calls
`update_book_status(book_id, "booked")` and
`remove_from_waiting_list(...)` acquire their *own* pool connections and
commit immediately, outside that transaction.  Only the `INSERT INTO
bookings` and the `UPDATE users` run on `conn` and are atomic together.
If the INSERT fails (foreign-key violation: the user row or the book row
is missing), the transaction rolls those two back but the already
committed book flip and waitlist deletion remain. -/
def create_booking (db : DB) (now : Nat) (user_id book_id : Nat)
    (book_title office duration : String) : DB × Except PyError (Nat × Nat) :=
  match duration_delta duration with
  | none => (db, Except.error (PyError.valueError (unknownDurationMsg ++ duration)))
  | some d =>
    let end_time := now + d
    let books1 := update_book_status db.books book_id statusBooked
    let wl1 := remove_from_waiting_list db.waiting_list user_id book_title office
    let db1 : DB := { db with books := books1, waiting_list := wl1 }
    if (db.users.any fun u => u.user_id == user_id) &&
       (db.books.any fun b => b.id == book_id) then
      let bid := db.nextBookingId
      let row : BookingRow :=
        { id := bid, user_id := user_id, book_id := book_id, book_title := book_title,
          office := office, start_time := now, duration := duration, end_time := end_time,
          status := "active", extension_made := false, overdue_notified := false }
      let users1 := db.users.map fun u =>
        if u.user_id == user_id then
          { u with current_book := some book_title, booking_start := some now,
                   booking_duration := some duration, booking_end := some end_time,
                   status := "booked" }
        else u
      ({ db1 with bookings := db.bookings ++ [row], users := users1, nextBookingId := bid + 1 },
       Except.ok (bid, end_time))
    else
      (db1, Except.error PyError.foreignKeyViolation)

/-- `complete_booking` (lines 329-348): flip the book instance back to
available, clear the holder's denormalized fields, mark the booking
completed, then call `notify_next_in_waiting_list` (which reads the
pre-transaction `users` on its own connection). -/
def complete_booking (db : DB) (user_id booking_id book_id : Nat)
    (book_title office : String) (sendOk : Bool) : DB × Bool :=
  let books1 := update_book_status db.books book_id statusAvailable
  let users1 := db.users.map fun u =>
    if u.user_id == user_id then
      { u with current_book := none, booking_start := none, booking_duration := none,
               booking_end := none, status := "available" }
    else u
  let bookings1 := db.bookings.map fun b =>
    if b.id == booking_id then { b with status := "completed" } else b
  let res := notify_next_in_waiting_list db.waiting_list db.users book_title office sendOk
  ({ db with books := books1, users := users1, bookings := bookings1, waiting_list := res.1 },
   res.2.2)

/-- `extend_booking` (lines 350-393): fetch the active booking of that user,
reject when `extension_made`, map the *original* duration class to the
extension length, push `end_time` forward and set the flag (plus the
denormalized `users.booking_end`). -/
def extend_booking (db : DB) (booking_id user_id : Nat) (book_title office : String) :
    DB × Except PyError (Nat × String) :=
  match db.bookings.find?
      (fun b => b.id == booking_id && b.user_id == user_id && b.status == "active") with
  | none => (db, Except.error (PyError.valueError notFoundMsg))
  | some booking =>
    if booking.extension_made then
      (db, Except.error (PyError.valueError alreadyExtendedMsg))
    else
      match extension_delta booking.duration with
      | none => (db, Except.error (PyError.valueError unknownDurationShort))
      | some (ext, extension_text) =>
        let new_end := booking.end_time + ext
        let bookings1 := db.bookings.map fun b =>
          if b.id == booking_id then
            { b with end_time := new_end, extension_made := true }
          else b
        let users1 := db.users.map fun u =>
          if u.user_id == user_id && u.current_book == some book_title &&
             u.status == "booked" then
            { u with booking_end := some new_end }
          else u
        ({ db with bookings := bookings1, users := users1 }, Except.ok (new_end, extension_text))

/-- Python `datetime.date()` on a minute count: the calendar day index. -/
def dateOf (t : Nat) : Nat := t / 1440

/-- Python `datetime.hour` on a minute count. -/
def hourOf (t : Nat) : Nat := t % 1440 / 60

/-- The pre-expiry reminder milestones of `check_reminders`
(lines 674-734), one constructor per `bot.send_message` site. -/
inductive Reminder where
  | hourBefore15
  | week_day5
  | week_day6
  | month_day21
  | month_day27
  | threeM_weekBefore
  | threeM_dayBefore
  | sixM_monthBefore
  | sixM_weekBefore
  | sixM_dayBefore
deriving DecidableEq

/-- The pre-expiry reminder section of the `check_reminders` loop body
(lines 674-734): which reminders the sweep at time `now` sends for one
active booking with the given duration class, start and end.  The
source keeps no per-milestone state here, so this is a pure function of
the sweep time. -/
def reminders_due (duration : String) (start endT now : Nat) : List Reminder :=
  if duration == "1 час" then
    if endT - 15 ≤ now ∧ now < endT then [Reminder.hourBefore15] else []
  else if duration == "1 неделя" then
    (if dateOf now = dateOf (start + 5 * 1440) ∧ hourOf now = 9 then [Reminder.week_day5] else [])
      ++ (if dateOf now = dateOf (start + 6 * 1440) ∧ hourOf now = 9 then [Reminder.week_day6] else [])
  else if duration == "1 месяц" then
    (if dateOf now = dateOf (start + 21 * 1440) ∧ hourOf now = 9 then [Reminder.month_day21] else [])
      ++ (if dateOf now = dateOf (start + 27 * 1440) ∧ hourOf now = 9 then [Reminder.month_day27] else [])
  else if duration == "3 месяца" then
    (if dateOf now = dateOf (endT - 7 * 1440) ∧ hourOf now = 9 then [Reminder.threeM_weekBefore] else [])
      ++ (if dateOf now = dateOf (endT - 1 * 1440) ∧ hourOf now = 9 then [Reminder.threeM_dayBefore] else [])
  else if duration == "6 месяцев" then
    (if dateOf now = dateOf (endT - 30 * 1440) ∧ hourOf now = 9 then [Reminder.sixM_monthBefore] else [])
      ++ (if dateOf now = dateOf (endT - 7 * 1440) ∧ hourOf now = 9 then [Reminder.sixM_weekBefore] else [])
      ++ (if dateOf now = dateOf (endT - 1 * 1440) ∧ hourOf now = 9 then [Reminder.sixM_dayBefore] else [])
  else []

/-- One row of the `check_reminders` join (active booking + its holder). -/
structure SweepRec where
  user_id : Nat
  booking_id : Nat
  book_title : String
  start_time : Nat
  duration : String
  end_time : Nat
deriving DecidableEq

/-- The `for rec in rows` loop of `check_reminders` (lines 658-762),
restricted to the pre-expiry reminder sends.  `sendFails u = true` models
`bot.send_message(u, ...)` raising.  The single `try/except` of the sweep
wraps the *whole* loop (lines 644-765), so the first raised exception
aborts the remaining iterations: the result is the list of
`(user, reminder)` messages actually sent plus the user at which the sweep
aborted (`none` if it ran to completion). -/
def check_reminders_sweep : List SweepRec → Nat → (Nat → Bool) → List (Nat × Reminder) × Option Nat
  | [], _, _ => ([], none)
  | r :: rest, now, sendFails =>
    let due := reminders_due r.duration r.start_time r.end_time now
    if sendFails r.user_id ∧ due ≠ [] then
      ([], some r.user_id)
    else
      let tail := check_reminders_sweep rest now sendFails
      (due.map (fun m => (r.user_id, m)) ++ tail.1, tail.2)

/-! ### Concrete test data (titles, offices, duration labels, small states) -/

def tX : String := "x"

def tAuthor : String := "a"

def offL1 : String := "L1"

def dHour : String := "1 час"

def dWeek : String := "1 неделя"

def dMonth : String := "1 месяц"

def d3M : String := "3 месяца"

def d6M : String := "6 месяцев"

def dBad : String := "2 часа"

def nameA : String := "A"

def nameB : String := "B"

def userA : UserRow :=
  { user_id := 1, first_name := nameA, last_name := nameA, office := offL1,
    current_book := none, booking_start := none, booking_duration := none,
    booking_end := none, status := statusAvailable }

def userB : UserRow := { userA with user_id := 2, first_name := nameB }

def copy1 : Book :=
  { id := 1, title := tX, author := tAuthor, office := offL1,
    shelf := none, floor := none, status := statusAvailable }

/-- Two registered holders, one available copy of title `x` at office `L1`. -/
def db0 : DB :=
  { users := [userA, userB], books := [copy1], bookings := [], waiting_list := [],
    nextBookingId := 1 }

/-- The copy exists but its holder row was deleted (the admin `!!!` command in
`process_users_edit` deletes a user while they may still be mid-dialog). -/
def dbC2 : DB :=
  { users := [], books := [copy1], bookings := [], waiting_list := [], nextBookingId := 1 }

def entryA3 : WaitingEntry :=
  { user_id := 1, book_title := tX, office := offL1, added_at := 1, notified := false }

def entryB3 : WaitingEntry := { entryA3 with user_id := 2, added_at := 2 }

/-- B's row committed first (earlier in row order) but A has the earlier
enqueue timestamp. -/
def wl3 : List WaitingEntry := [entryB3, entryA3]

def users3 : List UserRow := [userA, userB]

def recU1 : SweepRec :=
  { user_id := 1, booking_id := 1, book_title := tX, start_time := 10000,
    duration := dHour, end_time := 10060 }

def recU2 : SweepRec := { recU1 with user_id := 2, booking_id := 2 }

def copyId2 : Book :=
  { id := 2, title := tX, author := tAuthor, office := offL1,
    shelf := none, floor := none, status := statusAvailable }

def copyId1 : Book := { copyId2 with id := 1 }

/-- Physical row order puts the id-2 copy before the id-1 copy (row order is
not id order once rows have been updated, deleted or re-inserted). -/
def booksC8 : List Book := [copyId2, copyId1]

def wlDup : List WaitingEntry :=
  [{ user_id := 7, book_title := tX, office := offL1, added_at := 5, notified := false }]

def bkC6 : BookingRow :=
  { id := 1, user_id := 1, book_id := 1, book_title := tX, office := offL1,
    start_time := 0, duration := dHour, end_time := 60, status := statusActive,
    extension_made := false, overdue_notified := false }

def dbC6 : DB :=
  { users := [], books := [], bookings := [bkC6], waiting_list := [], nextBookingId := 2 }

/-! ### Helper lemmas -/

theorem find?_map_pred_invariant {α : Type} (p : α → Bool) (g : α → α) (l : List α)
    (h : ∀ x, p (g x) = p x) : (l.map g).find? p = (l.find? p).map g := by
  induction l with
  | nil => rfl
  | cons a t ih =>
    by_cases hp : p a = true
    · rw [List.map_cons, List.find?_cons_of_pos _ (by rw [h a]; exact hp),
        List.find?_cons_of_pos _ hp]
      rfl
    · rw [List.map_cons, List.find?_cons_of_neg _ (by rw [h a]; exact hp),
        List.find?_cons_of_neg _ hp]
      exact ih

theorem extend_booking_already_extended (db : DB) (booking_id user_id : Nat)
    (book_title office : String) (b : BookingRow)
    (hfind : db.bookings.find?
      (fun x => x.id == booking_id && x.user_id == user_id && x.status == "active") = some b)
    (hext : b.extension_made = true) :
    extend_booking db booking_id user_id book_title office =
      (db, Except.error (PyError.valueError alreadyExtendedMsg)) := by
  unfold extend_booking
  rw [hfind]
  simp [hext]

theorem get_first_spec (wl : List WaitingEntry) (bt off : String) :
    (get_first_in_waiting_list wl bt off = none → ∀ w ∈ wl, wlMatch w bt off = false)
    ∧ (∀ m, get_first_in_waiting_list wl bt off = some m →
        m ∈ wl ∧ wlMatch m bt off = true ∧
          ∀ w ∈ wl, wlMatch w bt off = true → m.added_at ≤ w.added_at) := by
  induction wl with
  | nil =>
    refine ⟨fun _ w hw => absurd hw (List.not_mem_nil w), fun m hm => ?_⟩
    simp [get_first_in_waiting_list] at hm
  | cons a t ih =>
    obtain ⟨ihn, ihs⟩ := ih
    by_cases ha : wlMatch a bt off = true
    · cases hr : get_first_in_waiting_list t bt off with
      | none =>
        have hforall := ihn hr
        constructor
        · intro h
          simp only [get_first_in_waiting_list, hr, if_pos ha] at h
          exact Option.noConfusion h
        · intro m hm
          simp only [get_first_in_waiting_list, hr, if_pos ha, Option.some.injEq] at hm
          subst hm
          refine ⟨List.mem_cons_self a t, ha, fun w hw hmw => ?_⟩
          rcases List.mem_cons.mp hw with h | h
          · subst h; exact Nat.le_refl _
          · exact absurd hmw (by rw [hforall w h]; exact Bool.false_ne_true)
      | some m' =>
        obtain ⟨hm'mem, hm'match, hm'min⟩ := ihs m' hr
        by_cases hle : a.added_at ≤ m'.added_at
        · constructor
          · intro h
            simp only [get_first_in_waiting_list, hr, if_pos ha, if_pos hle] at h
            exact Option.noConfusion h
          · intro m hm
            simp only [get_first_in_waiting_list, hr, if_pos ha, if_pos hle,
              Option.some.injEq] at hm
            subst hm
            refine ⟨List.mem_cons_self a t, ha, fun w hw hmw => ?_⟩
            rcases List.mem_cons.mp hw with h | h
            · subst h; exact Nat.le_refl _
            · exact Nat.le_trans hle (hm'min w h hmw)
        · constructor
          · intro h
            simp only [get_first_in_waiting_list, hr, if_pos ha, if_neg hle] at h
            exact Option.noConfusion h
          · intro m hm
            simp only [get_first_in_waiting_list, hr, if_pos ha, if_neg hle,
              Option.some.injEq] at hm
            subst hm
            refine ⟨List.mem_cons_of_mem a hm'mem, hm'match, fun w hw hmw => ?_⟩
            rcases List.mem_cons.mp hw with h | h
            · subst h; omega
            · exact hm'min w h hmw
    · have ha' : wlMatch a bt off = false := by
        revert ha; cases wlMatch a bt off <;> simp
      constructor
      · intro h w hw
        rcases List.mem_cons.mp hw with hh | hh
        · subst hh; exact ha'
        · refine ihn ?_ w hh
          simpa only [get_first_in_waiting_list, if_neg ha] using h
      · intro m hm
        simp only [get_first_in_waiting_list, if_neg ha] at hm
        obtain ⟨hmem, hmatch, hmin⟩ := ihs m hm
        refine ⟨List.mem_cons_of_mem a hmem, hmatch, fun w hw hmw => ?_⟩
        rcases List.mem_cons.mp hw with hh | hh
        · subst hh; exact absurd hmw (by rw [ha']; exact Bool.false_ne_true)
        · exact hmin w hh hmw

/-! ### Claims -/

/-- C1: the copy-exclusivity invariant fails on the code.  The availability
check of the dialog (`get_available_book_instance`) and the write
(`create_booking`) are separate steps with no re-check inside
`create_booking`, so two holders whose dialogs both saw the same copy
available each get an active booking on it: from `db0`, holder 2 books
copy 1 and then holder 1 books the same copy 1; the final state carries two
simultaneously active bookings referencing copy 1. -/
theorem copy_exclusivity_double_booking :
    get_available_book_instance db0.books tX offL1 = some copy1 ∧
    ((create_booking ((create_booking db0 100 2 1 tX offL1 dWeek).1)
        101 1 1 tX offL1 dWeek).1.bookings.filter
      (fun b => b.book_id == 1 && b.status == "active")).length = 2 ∧
    (∃ bk ∈ (create_booking ((create_booking db0 100 2 1 tX offL1 dWeek).1)
        101 1 1 tX offL1 dWeek).1.books, bk.id = 1 ∧ bk.status = statusBooked) := by
  decide

/-- C2: Reserve is not atomic.  `update_book_status` and
`remove_from_waiting_list` commit on their own pool connections outside the
`conn.transaction()` of `create_booking`; when the `INSERT INTO bookings`
then fails (here: its holder row is gone, a foreign-key violation), the copy
stays flipped to `booked` while no booking row exists — a partial
application of Reserve's writes. -/
theorem create_booking_partial_commit :
    (create_booking dbC2 100 1 1 tX offL1 dWeek).2 =
      Except.error PyError.foreignKeyViolation ∧
    (create_booking dbC2 100 1 1 tX offL1 dWeek).1.bookings = [] ∧
    (∃ bk ∈ (create_booking dbC2 100 1 1 tX offL1 dWeek).1.books,
      bk.id = 1 ∧ bk.status = statusBooked) := by
  decide

/-- C4: milestone reminders re-fire inside one window.  For a one-week
booking starting at minute 0, the sweep times 7740 (day 5, 09:00) and 7745
(day 5, 09:05) both lie in the day-5 hour-9 milestone window, and each sweep
sends the day-5 reminder again: two notifications for one milestone. -/
theorem milestone_refire_same_window :
    dateOf 7740 = dateOf (0 + 5 * 1440) ∧ hourOf 7740 = 9 ∧
    dateOf 7745 = dateOf (0 + 5 * 1440) ∧ hourOf 7745 = 9 ∧ (7740 : Nat) ≠ 7745 ∧
    (reminders_due dWeek 0 10080 7740 ++ reminders_due dWeek 0 10080 7745).count
      Reminder.week_day5 = 2 := by
  decide

/-- C7: a delivery failure is not isolated.  The sweep's single `try/except`
wraps the whole `for` loop, so when sending to holder 1 raises, holder 2's
due reminder is never processed in that sweep; with no failure both holders
are reminded. -/
theorem sweep_abort_on_delivery_failure :
    check_reminders_sweep [recU1, recU2] 10050 (fun u => u == 1) = ([], some 1) ∧
    (check_reminders_sweep [recU1, recU2] 10050 (fun _ => false)).1 =
      [(1, Reminder.hourBefore15), (2, Reminder.hourBefore15)] := by
  decide

/-- C8 counterexample: with the id-2 copy physically before the id-1 copy
(both available), `get_available_book_instance` — `LIMIT 1` with no
`ORDER BY` — returns the id-2 copy, not the available copy with the lowest
identity. -/
theorem get_available_book_instance_not_lowest_id :
    get_available_book_instance booksC8 tX offL1 = some copyId2 ∧
    copyId1 ∈ booksC8 ∧ copyId1.status = statusAvailable ∧
    strLower copyId1.title = strLower tX ∧ copyId1.office = offL1 ∧
    copyId1.id < copyId2.id := by
  decide

/-- C9 counterexample: a duplicate enqueue returns `true` — the very same
value a fresh insert returns — while changing nothing, so the return value
does not indicate that the entry was not newly added. -/
theorem add_to_waiting_list_duplicate_returns_true :
    add_to_waiting_list wlDup 7 tX offL1 9 = (wlDup, true) ∧
    (add_to_waiting_list [] 7 tX offL1 5).2 = true := by
  decide

/-- C3: waitlist FIFO.  `get_first_in_waiting_list` returns the
earliest-enqueued entry with `notified = false` for the title/office (none
when no such entry exists); consequently, when A enqueued strictly before B
(both present and unnotified, entries unique per requester as the schema's
UNIQUE constraint guarantees), a copy release (`notify_next_in_waiting_list`)
never notifies B: the send goes to the minimum entry and B's row is left
unnotified. -/
theorem waitlist_fifo (wl : List WaitingEntry) (users : List UserRow) (bt off : String) :
    (get_first_in_waiting_list wl bt off = none → ∀ w ∈ wl, wlMatch w bt off = false)
    ∧ (∀ m, get_first_in_waiting_list wl bt off = some m →
        m ∈ wl ∧ wlMatch m bt off = true ∧
          ∀ w ∈ wl, wlMatch w bt off = true → m.added_at ≤ w.added_at)
    ∧ (∀ A B : WaitingEntry, A ∈ wl → B ∈ wl →
        wlMatch A bt off = true → wlMatch B bt off = true → A.added_at < B.added_at →
        (∀ w1, w1 ∈ wl → ∀ w2, w2 ∈ wl → wlMatch w1 bt off = true →
          wlMatch w2 bt off = true → w1.user_id = w2.user_id → w1 = w2) →
        (notify_next_in_waiting_list wl users bt off true).2.1 ≠ some B.user_id
        ∧ B ∈ (notify_next_in_waiting_list wl users bt off true).1
        ∧ B.notified = false) := by
  obtain ⟨hn, hs⟩ := get_first_spec wl bt off
  refine ⟨hn, hs, ?_⟩
  intro A B hA hB hmA hmB hlt huniq
  have hBnot : B.notified = false := by
    cases hb : B.notified with
    | false => rfl
    | true =>
      exfalso
      unfold wlMatch at hmB
      rw [hb] at hmB
      simp at hmB
  cases hgf : get_first_in_waiting_list wl bt off with
  | none => exact absurd hmA (by rw [hn hgf A hA]; exact Bool.false_ne_true)
  | some m =>
    obtain ⟨hmmem, hmmatch, hmmin⟩ := hs m hgf
    have hmA' : m.added_at ≤ A.added_at := hmmin A hA hmA
    have hmB' : m.added_at < B.added_at := lt_of_le_of_lt hmA' hlt
    have hmuid : m.user_id ≠ B.user_id := by
      intro he
      have heq : m = B := huniq m hmmem B hB hmmatch hmB he
      rw [heq] at hmB'
      exact lt_irrefl _ hmB'
    have hpredB : (B.user_id == m.user_id && B.book_title == bt && B.office == off) = false := by
      have h1 : (B.user_id == m.user_id) = false :=
        beq_eq_false_iff_ne.mpr fun he => hmuid he.symm
      simp [h1]
    have hmarkB : (fun e : WaitingEntry =>
        if e.user_id == m.user_id && e.book_title == bt && e.office == off then
          { e with notified := true }
        else e) B = B := by
      simp only [hpredB, Bool.false_eq_true, if_false]
    cases hui : get_user_info users m.user_id with
    | none =>
      have hnn : notify_next_in_waiting_list wl users bt off true = (wl, none, false) := by
        simp [notify_next_in_waiting_list, hgf, hui]
      refine ⟨?_, ?_, hBnot⟩
      · rw [hnn]
        simp
      · rw [hnn]
        exact hB
    | some u =>
      have hnn : notify_next_in_waiting_list wl users bt off true =
          (wl.map (fun e : WaitingEntry =>
            if e.user_id == m.user_id && e.book_title == bt && e.office == off then
              { e with notified := true }
            else e), some m.user_id, true) := by
        simp [notify_next_in_waiting_list, hgf, hui]
      refine ⟨?_, ?_, hBnot⟩
      · rw [hnn]
        intro hc
        have hc' : some m.user_id = some B.user_id := hc
        exact hmuid (Option.some.inj hc')
      · rw [hnn]
        exact List.mem_map.mpr ⟨B, hB, hmarkB⟩

/-- C3 witness: with B's row committed first but A's timestamp earlier, the
release notifies A's entry and leaves B's untouched. -/
theorem waitlist_fifo_witness :
    (notify_next_in_waiting_list wl3 users3 tX offL1 true).2.1 ≠ some entryB3.user_id
    ∧ entryB3 ∈ (notify_next_in_waiting_list wl3 users3 tX offL1 true).1
    ∧ entryB3.notified = false :=
  (waitlist_fifo wl3 users3 tX offL1).2.2 entryA3 entryB3 (by decide) (by decide)
    (by decide) (by decide) (by decide) (by decide)

/-- C5: for every successful Reserve the stored end time is the start time
plus the duration mapping (1 час → +60 min, 1 неделя → +10080 min = 7 d,
1 месяц → +30 d, 3 месяца → +90 d, 6 месяцев → +180 d): `create_booking`
returns `(id, now + f(duration))` and inserts an active booking row with
`start_time = now` and `end_time = now + f(duration)`. -/
theorem create_booking_duration_mapping (db : DB) (now user_id book_id : Nat)
    (book_title office duration : String) (d : Nat)
    (hd : duration_delta duration = some d)
    (huser : (db.users.any fun u => u.user_id == user_id) = true)
    (hbook : (db.books.any fun b => b.id == book_id) = true) :
    (duration_delta dHour = some 60 ∧ duration_delta dWeek = some 10080 ∧
      duration_delta dMonth = some 43200 ∧ duration_delta d3M = some 129600 ∧
      duration_delta d6M = some 259200)
    ∧ (create_booking db now user_id book_id book_title office duration).2 =
        Except.ok (db.nextBookingId, now + d)
    ∧ (∃ row ∈ (create_booking db now user_id book_id book_title office duration).1.bookings,
        row.id = db.nextBookingId ∧ row.user_id = user_id ∧ row.book_id = book_id ∧
        row.start_time = now ∧ row.duration = duration ∧ row.end_time = now + d ∧
        row.status = statusActive ∧ row.extension_made = false) := by
  have hcb : create_booking db now user_id book_id book_title office duration =
      (({ users := db.users.map (fun u =>
            if u.user_id == user_id then
              { u with current_book := some book_title, booking_start := some now,
                       booking_duration := some duration, booking_end := some (now + d),
                       status := "booked" }
            else u),
          books := update_book_status db.books book_id statusBooked,
          bookings := db.bookings ++
            [{ id := db.nextBookingId, user_id := user_id,
               book_id := book_id, book_title := book_title, office := office,
               start_time := now, duration := duration, end_time := now + d,
               status := "active", extension_made := false, overdue_notified := false }],
          waiting_list := remove_from_waiting_list db.waiting_list user_id book_title office,
          nextBookingId := db.nextBookingId + 1 } : DB),
       Except.ok (db.nextBookingId, now + d)) := by
    simp [create_booking, hd, huser, hbook]
  refine ⟨⟨by decide, by decide, by decide, by decide, by decide⟩, ?_, ?_⟩
  · rw [hcb]
  · rw [hcb]
    exact ⟨{ id := db.nextBookingId, user_id := user_id, book_id := book_id,
             book_title := book_title, office := office, start_time := now,
             duration := duration, end_time := now + d, status := "active",
             extension_made := false, overdue_notified := false },
           List.mem_append_right _ (List.mem_singleton.mpr rfl),
           rfl, rfl, rfl, rfl, rfl, rfl, rfl, rfl⟩

/-- C5 witness: a one-week reservation of copy 1 by holder 1 started at
minute 0 ends at minute 10080 = 7 days later. -/
theorem create_booking_duration_mapping_witness :
    (duration_delta dHour = some 60 ∧ duration_delta dWeek = some 10080 ∧
      duration_delta dMonth = some 43200 ∧ duration_delta d3M = some 129600 ∧
      duration_delta d6M = some 259200)
    ∧ (create_booking db0 0 1 1 tX offL1 dWeek).2 = Except.ok (db0.nextBookingId, 0 + 10080)
    ∧ (∃ row ∈ (create_booking db0 0 1 1 tX offL1 dWeek).1.bookings,
        row.id = db0.nextBookingId ∧ row.user_id = 1 ∧ row.book_id = 1 ∧
        row.start_time = 0 ∧ row.duration = dWeek ∧ row.end_time = 0 + 10080 ∧
        row.status = statusActive ∧ row.extension_made = false) :=
  create_booking_duration_mapping db0 0 1 1 tX offL1 dWeek 10080 (by decide)
    (by decide) (by decide)

/-- C6: Extend is idempotent-rejecting.  With an active booking whose
extension flag is clear, `extend_booking` pushes the end time forward by the
amount mapped from the original duration class (1 час → +15 min,
1 неделя → +1 week, 1 месяц → +14 d, 3 месяца → +30 d, 6 месяцев → +60 d)
and sets `extension_made`; every subsequent call on the same booking then
fails with the already-extended error and returns the state unchanged
(`extend_booking` never consults the clock, so this holds regardless of
timing). -/
theorem extend_booking_idempotent_rejecting (db : DB) (booking_id user_id : Nat)
    (book_title office : String) (b : BookingRow) (ext : Nat) (txt : String)
    (hfind : db.bookings.find?
      (fun x => x.id == booking_id && x.user_id == user_id && x.status == "active") = some b)
    (hext : b.extension_made = false)
    (hdur : extension_delta b.duration = some (ext, txt)) :
    (extension_delta dHour = some (15, extTxtHour) ∧
      extension_delta dWeek = some (10080, extTxtWeek) ∧
      extension_delta dMonth = some (20160, extTxtMonth) ∧
      extension_delta d3M = some (43200, extTxt3M) ∧
      extension_delta d6M = some (86400, extTxt6M))
    ∧ (extend_booking db booking_id user_id book_title office).2 =
        Except.ok (b.end_time + ext, txt)
    ∧ ((extend_booking db booking_id user_id book_title office).1.bookings.find?
        (fun x => x.id == booking_id && x.user_id == user_id && x.status == "active") =
          some { b with end_time := b.end_time + ext, extension_made := true })
    ∧ extend_booking (extend_booking db booking_id user_id book_title office).1
        booking_id user_id book_title office =
        ((extend_booking db booking_id user_id book_title office).1,
         Except.error (PyError.valueError alreadyExtendedMsg)) := by
  have hid : (b.id == booking_id) = true := by
    have hpred := List.find?_some hfind
    simp only [Bool.and_eq_true] at hpred
    exact hpred.1.1
  have h1 : extend_booking db booking_id user_id book_title office =
      (({ users := db.users.map (fun u =>
            if u.user_id == user_id && u.current_book == some book_title &&
               u.status == "booked" then
              { u with booking_end := some (b.end_time + ext) }
            else u),
          books := db.books,
          bookings := db.bookings.map (fun x =>
            if x.id == booking_id then
              { x with end_time := b.end_time + ext, extension_made := true }
            else x),
          waiting_list := db.waiting_list,
          nextBookingId := db.nextBookingId } : DB),
       Except.ok (b.end_time + ext, txt)) := by
    simp [extend_booking, hfind, hext, hdur]
  have hinv : ∀ x : BookingRow,
      ((if x.id == booking_id then
          { x with end_time := b.end_time + ext, extension_made := true }
        else x).id == booking_id &&
       (if x.id == booking_id then
          { x with end_time := b.end_time + ext, extension_made := true }
        else x).user_id == user_id &&
       (if x.id == booking_id then
          { x with end_time := b.end_time + ext, extension_made := true }
        else x).status == "active") =
      (x.id == booking_id && x.user_id == user_id && x.status == "active") := by
    intro x
    by_cases hx : (x.id == booking_id) = true
    · simp [hx]
    · simp [hx]
  have hfind2 : (db.bookings.map (fun x =>
      if x.id == booking_id then
        { x with end_time := b.end_time + ext, extension_made := true }
      else x)).find?
      (fun x => x.id == booking_id && x.user_id == user_id && x.status == "active") =
      some { b with end_time := b.end_time + ext, extension_made := true } := by
    have hid' : b.id = booking_id := by simpa using hid
    rw [find?_map_pred_invariant _ _ _ hinv, hfind]
    simp [hid']
  refine ⟨⟨by decide, by decide, by decide, by decide, by decide⟩, ?_, ?_, ?_⟩
  · rw [h1]
  · rw [h1]
    exact hfind2
  · rw [h1]
    exact extend_booking_already_extended _ booking_id user_id book_title office
      { b with end_time := b.end_time + ext, extension_made := true } hfind2 rfl

/-- C6 witness: a fresh one-hour booking is extended by 15 minutes once,
and the second extension attempt fails with the already-extended error,
leaving the state unchanged. -/
theorem extend_booking_idempotent_rejecting_witness :
    (extension_delta dHour = some (15, extTxtHour) ∧
      extension_delta dWeek = some (10080, extTxtWeek) ∧
      extension_delta dMonth = some (20160, extTxtMonth) ∧
      extension_delta d3M = some (43200, extTxt3M) ∧
      extension_delta d6M = some (86400, extTxt6M))
    ∧ (extend_booking dbC6 1 1 tX offL1).2 = Except.ok (bkC6.end_time + 15, extTxtHour)
    ∧ ((extend_booking dbC6 1 1 tX offL1).1.bookings.find?
        (fun x => x.id == 1 && x.user_id == 1 && x.status == "active") =
          some { bkC6 with end_time := bkC6.end_time + 15, extension_made := true })
    ∧ extend_booking (extend_booking dbC6 1 1 tX offL1).1 1 1 tX offL1 =
        ((extend_booking dbC6 1 1 tX offL1).1,
         Except.error (PyError.valueError alreadyExtendedMsg)) :=
  extend_booking_idempotent_rejecting dbC6 1 1 tX offL1 bkC6 15 extTxtHour
    (by decide) (by decide) (by decide)

/-- C8 amended: `get_available_book_instance` returns an available copy of
the requested title (compared case-insensitively) at the requested office
when one exists — the first such copy in the table's physical row order —
but not necessarily the available copy with the lowest identity. -/
theorem get_available_book_instance_first_available (books : List Book)
    (title office : String) :
    (∀ b, get_available_book_instance books title office = some b →
      b ∈ books ∧ strLower b.title = strLower title ∧ b.office = office ∧
        b.status = statusAvailable)
    ∧ ((∃ b ∈ books, (strLower b.title == strLower title && b.office == office &&
          b.status == "available") = true) →
        (get_available_book_instance books title office).isSome = true) := by
  constructor
  · intro b hb
    have hp := List.find?_some hb
    have hm := List.mem_of_find?_eq_some hb
    simp only [Bool.and_eq_true, beq_iff_eq] at hp
    exact ⟨hm, hp.1.1, hp.1.2, hp.2⟩
  · intro hex
    unfold get_available_book_instance
    rw [List.find?_isSome]
    exact hex

/-- C8 amended witness: on the row order that refutes the lowest-identity
claim, the function still returns some available matching copy. -/
theorem get_available_book_instance_first_available_witness :
    (get_available_book_instance booksC8 tX offL1).isSome = true :=
  (get_available_book_instance_first_available booksC8 tX offL1).2
    ⟨copyId2, by decide, by decide⟩

/-- C9 amended: `add_to_waiting_list` inserts a fresh entry when none
matches `(requester, title, office)` and is a no-op when one does, always
returning `true` in both cases (so the return value does not signal whether
the entry was newly added), and it preserves the uniqueness of
`(requester, title, office)`. -/
theorem add_to_waiting_list_idempotent (wl : List WaitingEntry) (user_id : Nat)
    (book_title office : String) (now : Nat)
    (huniq : (wl.filter fun w => w.user_id == user_id && w.book_title == book_title &&
        w.office == office).length ≤ 1) :
    (add_to_waiting_list wl user_id book_title office now).2 = true
    ∧ ((wl.any fun w => w.user_id == user_id && w.book_title == book_title &&
          w.office == office) = true →
        (add_to_waiting_list wl user_id book_title office now).1 = wl)
    ∧ ((wl.any fun w => w.user_id == user_id && w.book_title == book_title &&
          w.office == office) = false →
        (add_to_waiting_list wl user_id book_title office now).1 =
          wl ++ [{ user_id := user_id, book_title := book_title, office := office,
                   added_at := now, notified := false }])
    ∧ ((add_to_waiting_list wl user_id book_title office now).1.filter
        (fun w => w.user_id == user_id && w.book_title == book_title &&
          w.office == office)).length ≤ 1 := by
  by_cases h : (wl.any fun w => w.user_id == user_id && w.book_title == book_title &&
      w.office == office) = true
  · have he : add_to_waiting_list wl user_id book_title office now = (wl, true) := by
      simp [add_to_waiting_list, h]
    rw [he]
    refine ⟨rfl, fun _ => rfl, fun hf => ?_, huniq⟩
    rw [h] at hf
    exact absurd hf (by simp)
  · have he : add_to_waiting_list wl user_id book_title office now =
        (wl ++ [{ user_id := user_id, book_title := book_title, office := office,
                  added_at := now, notified := false }], true) := by
      simp [add_to_waiting_list, h]
    have hnil : wl.filter (fun w => w.user_id == user_id && w.book_title == book_title &&
        w.office == office) = [] := by
      rw [List.filter_eq_nil_iff]
      intro a ha hpa
      exact h (List.any_eq_true.mpr ⟨a, ha, hpa⟩)
    rw [he]
    refine ⟨rfl, fun ht => absurd ht h, fun _ => rfl, ?_⟩
    rw [List.filter_append, hnil]
    simp

/-- C9 amended witness: on a waitlist already holding the entry, the call
keeps the list unchanged, returns `true`, and uniqueness is preserved. -/
theorem add_to_waiting_list_idempotent_witness :
    (add_to_waiting_list wlDup 7 tX offL1 9).2 = true
    ∧ ((wlDup.any fun w => w.user_id == 7 && w.book_title == tX &&
          w.office == offL1) = true →
        (add_to_waiting_list wlDup 7 tX offL1 9).1 = wlDup)
    ∧ ((wlDup.any fun w => w.user_id == 7 && w.book_title == tX &&
          w.office == offL1) = false →
        (add_to_waiting_list wlDup 7 tX offL1 9).1 =
          wlDup ++ [{ user_id := 7, book_title := tX, office := offL1,
                      added_at := 9, notified := false }])
    ∧ ((add_to_waiting_list wlDup 7 tX offL1 9).1.filter
        (fun w => w.user_id == 7 && w.book_title == tX &&
          w.office == offL1)).length ≤ 1 :=
  add_to_waiting_list_idempotent wlDup 7 tX offL1 9 (by decide)

/-- C10: an unrecognized duration class is rejected before any write: the
`ValueError` is raised while computing the end time, ahead of the
transaction and of the two immediately-committing helpers, so the returned
state is exactly the input state. -/
theorem create_booking_unknown_duration_no_write (db : DB) (now user_id book_id : Nat)
    (book_title office duration : String) (h : duration_delta duration = none) :
    create_booking db now user_id book_id book_title office duration =
      (db, Except.error (PyError.valueError (unknownDurationMsg ++ duration))) := by
  unfold create_booking
  rw [h]

/-- C10 witness: the unknown label `2 часа` is rejected with every table of
`db0` untouched. -/
theorem create_booking_unknown_duration_no_write_witness :
    create_booking db0 100 1 1 tX offL1 dBad =
      (db0, Except.error (PyError.valueError (unknownDurationMsg ++ dBad))) :=
  create_booking_unknown_duration_no_write db0 100 1 1 tX offL1 dBad (by decide)
